import Mathlib

/-!
# Verification of the EDA cleaning pipeline

Shallow embedding of the data-cleaning code of `EDA_spotify.py` (functions
`padronizar_colunas` and `limpar_dados`).  A dataframe is modelled as an
association list from column names to lists of cells; a cell is a missing
marker (`na`, pandas `NaN`), a rational number (pandas numeric values), a
string, or a boolean.  Fallible pandas operations (`drop` of an absent
column, `astype(float)` on a non-numeric string, `mode()[0]` on an empty
mode) are modelled in the `Option` monad; coercing operations
(`pd.to_numeric(errors='coerce')`, `.str.replace`) are total, sending
failures to `na` exactly as pandas does.
-/

namespace EDA

/-- One cell of the dataframe: missing (`NaN`), numeric, string or boolean. -/
inductive Cell where
  | na   : Cell
  | num  : ℚ → Cell
  | str  : String → Cell
  | bool : Bool → Cell
  deriving DecidableEq, Repr

/-- A dataframe: an association list from column names to columns of cells. -/
abbrev DataFrame := List (String × List Cell)

/-- Column access `df[n]`: the first column named `n`, if any. -/
def getCol : DataFrame → String → Option (List Cell)
  | [], _ => none
  | (m, w) :: rest, n => if m = n then some w else getCol rest n

/-- Column assignment `df[n] = v`: replace the column in place if it exists,
otherwise append it at the end (pandas semantics). -/
def setCol : DataFrame → String → List Cell → DataFrame
  | [], n, v => [(n, v)]
  | (m, w) :: rest, n, v =>
    if m = n then (n, v) :: rest else (m, w) :: setCol rest n v

/-- `df.drop(columns=[n])` without the existence check: remove every column
named `n`. -/
def dropCol : DataFrame → String → DataFrame
  | [], _ => []
  | (m, w) :: rest, n => if m = n then dropCol rest n else (m, w) :: dropCol rest n

/-- Value of a list of decimal digits. -/
def digitsToNat (l : List Char) : Nat :=
  l.foldl (fun n c => 10 * n + (c.toNat - ('0').toNat)) 0

/-- Numeric parsing as used by `pd.to_numeric` on this dataset: a nonempty
all-digit string parses to its value, anything else fails.  (The streams and
count columns of the CSV hold plain digit strings, possibly with thousands
separators that the code strips beforehand.) -/
def parseNum (s : String) : Option ℚ :=
  if s.data ≠ [] ∧ s.data.all Char.isDigit then some (digitsToNat s.data : ℚ)
  else none

/-- Elementwise `pd.to_numeric(·, errors='coerce')`: numbers pass through,
parseable strings become numbers, anything else becomes missing. -/
def toNumericCell : Cell → Cell
  | Cell.na => Cell.na
  | Cell.num q => Cell.num q
  | Cell.bool b => Cell.num (if b then 1 else 0)
  | Cell.str s =>
    match parseNum s with
    | some q => Cell.num q
    | none => Cell.na

def toNumericCol (col : List Cell) : List Cell :=
  col.map toNumericCell

/-- Elementwise `.str.replace(',', '')`: strings lose their commas, every
non-string element becomes missing (pandas `.str` accessor semantics on an
object column). -/
def strReplaceCell : Cell → Cell
  | Cell.str s => Cell.str ⟨s.data.filter (fun c => c ≠ ',')⟩
  | _ => Cell.na

def strReplaceCol (col : List Cell) : List Cell :=
  col.map strReplaceCell

/-- Elementwise `astype(float)`: numbers and missing pass through, a string
must parse or the conversion raises (modelled as `none`). -/
def astypeFloatCell : Cell → Option Cell
  | Cell.na => some Cell.na
  | Cell.num q => some (Cell.num q)
  | Cell.bool b => some (Cell.num (if b then 1 else 0))
  | Cell.str s => (parseNum s).map Cell.num

def astypeFloatCol : List Cell → Option (List Cell)
  | [] => some []
  | c :: cs =>
    match astypeFloatCell c, astypeFloatCol cs with
    | some c', some cs' => some (c' :: cs')
    | _, _ => none

/-- The numeric values of a column, in order (pandas drops `NaN` before
computing quantiles, medians and modes). -/
def numsOf (col : List Cell) : List ℚ :=
  col.filterMap (fun c =>
    match c with
    | Cell.num q => some q
    | _ => none)

/-- Insertion into a sorted list, ascending. -/
def insertSorted (x : ℚ) : List ℚ → List ℚ
  | [] => [x]
  | y :: ys => if x ≤ y then x :: y :: ys else y :: insertSorted x ys

/-- Insertion sort, ascending. -/
def sortQ (l : List ℚ) : List ℚ :=
  l.foldr insertSorted []

/-- `Series.quantile(q)` with pandas' default linear interpolation over the
sorted non-missing values: at position `h = q*(n-1)` the result is
`v⌊h⌋ + (h-⌊h⌋)·(v⌊h⌋₊₁ - v⌊h⌋)`; `none` when there is no numeric value
(pandas returns `NaN` there). -/
def quantileQ (xs : List ℚ) (q : ℚ) : Option ℚ :=
  match sortQ xs with
  | [] => none
  | y :: ys =>
    let s := y :: ys
    let pos : ℚ := q * ((s.length : ℚ) - 1)
    let i : Nat := pos.floor.toNat
    let lo := s.getD i y
    let hi := s.getD (i + 1) lo
    some (lo + (pos - (pos.floor : ℚ)) * (hi - lo))

/-- The IQR outlier test `(x < Q1 - 1.5*IQR) | (x > Q3 + 1.5*IQR)`; on a
missing value both pandas comparisons are `False`, so the flag is `false`. -/
def outlierFlag (q1 q3 : ℚ) : Cell → Bool
  | Cell.num x =>
    decide (x < q1 - 3 / 2 * (q3 - q1)) || decide (q3 + 3 / 2 * (q3 - q1) < x)
  | _ => false

/-- The boolean outlier-flag column computed from a (coerced) column: when
the quantiles exist, flag each cell by the IQR test; when the column has no
numeric value both quantiles are `NaN` and every comparison is `False`. -/
def flagCol (col : List Cell) : List Cell :=
  match quantileQ (numsOf col) (1 / 4), quantileQ (numsOf col) (3 / 4) with
  | some q1, some q3 => col.map (fun c => Cell.bool (outlierFlag q1 q3 c))
  | _, _ => col.map (fun _ => Cell.bool false)

/-- `fillna(median)`: replace missing cells by the column median
(`quantile(0.5)`); when the median is itself `NaN` the fill is a no-op. -/
def fillnaMedian (col : List Cell) : List Cell :=
  match quantileQ (numsOf col) (1 / 2) with
  | some m =>
    col.map (fun c =>
      match c with
      | Cell.na => Cell.num m
      | c => c)
  | none => col

/-- The string values of a column, in order. -/
def strsOf (col : List Cell) : List String :=
  col.filterMap (fun c =>
    match c with
    | Cell.str s => some s
    | _ => none)

/-- Lexicographic strict order on character lists (Python string `<`). -/
def lexLtb : List Char → List Char → Bool
  | [], [] => false
  | [], _ :: _ => true
  | _ :: _, [] => false
  | a :: as, b :: bs => if a < b then true else if a = b then lexLtb as bs else false

/-- One step of the running-mode fold: keep the candidate with the higher
count in `vs`, preferring the lexicographically smaller one on ties. -/
def modeStep (vs : List String) (acc : Option String) (v : String) : Option String :=
  match acc with
  | none => some v
  | some b =>
    if vs.count b < vs.count v ∨ (vs.count v = vs.count b ∧ lexLtb v.data b.data) then some v
    else some b

/-- `mode()[0]`: among the non-missing values, the most frequent one,
breaking ties towards the smallest (pandas sorts the modes); `none` when
there is no value, where `mode()[0]` raises. -/
def modeOf (col : List Cell) : Option String :=
  let vs := strsOf col
  vs.foldl (modeStep vs) none

/-- `fillna(m)` on a string column. -/
def fillnaStr (m : String) (col : List Cell) : List Cell :=
  col.map (fun c =>
    match c with
    | Cell.na => Cell.str m
    | c => c)

/-- The seven musical-feature columns of `limpar_dados` (source list
`metricas_musicais`). -/
def metricas_musicais : List String :=
  ["danceability", "energy", "valence", "acousticness",
   "instrumentalness", "liveness", "speechiness"]

/-- The platform playlist-count columns of `limpar_dados` (source list
`playlist_cols`). -/
def playlist_cols : List String :=
  ["playlists_spotify", "playlists_apple", "playlists_deezer"]

/-- Step 2 of `limpar_dados`: strip commas from `streams`, coerce to
numeric, and add the `is_outlier_streams` IQR flag column. -/
def streamsStage (df : DataFrame) : Option DataFrame :=
  match getCol df "streams" with
  | none => none
  | some s =>
    let s' := toNumericCol (strReplaceCol s)
    some (setCol (setCol df "streams" s') "is_outlier_streams" (flagCol s'))

/-- One iteration of step 3 of `limpar_dados`: `astype(float)` on the metric
column, then add its `is_outlier_<metric>` IQR flag column. -/
def metricStage (df : DataFrame) (m : String) : Option DataFrame :=
  match getCol df m with
  | none => none
  | some c =>
    match astypeFloatCol c with
    | none => none
    | some c' =>
      some (setCol (setCol df m c') ("is_outlier_" ++ m) (flagCol c'))

/-- One iteration of step 4 of `limpar_dados`: coerce a playlist-count
column to numeric and fill its missing values with the column median. -/
def playlistStage (df : DataFrame) (c : String) : Option DataFrame :=
  match getCol df c with
  | none => none
  | some v => some (setCol df c (fillnaMedian (toNumericCol v)))

/-- Step 5 of `limpar_dados`: fill missing `tom_musical` values with the
column mode (`mode()[0]` raises when the column has no value). -/
def tomStage (df : DataFrame) : Option DataFrame :=
  match getCol df "tom_musical" with
  | none => none
  | some k =>
    match modeOf k with
    | none => none
    | some m => some (setCol df "tom_musical" (fillnaStr m k))

/-- `limpar_dados`: drop `cover_url` (pandas raises when absent), coerce and
flag `streams`, coerce and flag the seven musical metrics, coerce and
median-impute the three playlist columns, mode-impute `tom_musical`.  The
input dataframe value is not modified (`df = df.copy()` in the source). -/
def limpar_dados (df : DataFrame) : Option DataFrame :=
  match getCol df "cover_url" with
  | none => none
  | some _ =>
    (streamsStage (dropCol df "cover_url")).bind fun df1 =>
    (metricas_musicais.foldlM metricStage df1).bind fun df2 =>
    (playlist_cols.foldlM playlistStage df2).bind fun df3 =>
    tomStage df3

/-- The renaming dictionary of `padronizar_colunas` (source `rename_dict`). -/
def rename_dict : List (String × String) :=
  [("artist(s)_name", "artistas"),
   ("track_name", "musica"),
   ("artist_count", "qt_artistas"),
   ("released_year", "ano_lancamento"),
   ("released_month", "mes_lancamento"),
   ("released_day", "dia_lancamento"),
   ("in_spotify_playlists", "playlists_spotify"),
   ("in_spotify_charts", "charts_spotify"),
   ("in_apple_playlists", "playlists_apple"),
   ("in_apple_charts", "charts_apple"),
   ("in_deezer_playlists", "playlists_deezer"),
   ("in_deezer_charts", "charts_deezer"),
   ("in_shazam_charts", "charts_shazam"),
   ("streams", "streams"),
   ("bpm", "bpm"),
   ("key", "tom_musical"),
   ("mode", "modo_musical"),
   ("danceability_%", "danceability"),
   ("valence_%", "valence"),
   ("energy_%", "energy"),
   ("acousticness_%", "acousticness"),
   ("instrumentalness_%", "instrumentalness"),
   ("liveness_%", "liveness"),
   ("speechiness_%", "speechiness")]

/-- Association-list lookup for the renaming dictionary. -/
def lookupName : List (String × String) → String → Option String
  | [], _ => none
  | (a, b) :: rest, n => if a = n then some b else lookupName rest n

/-- `df.rename(columns=rename_dict)`: map each column name through the
dictionary, leaving unlisted names unchanged. -/
def renameCols (df : DataFrame) : DataFrame :=
  df.map (fun c => ((lookupName rename_dict c.1).getD c.1, c.2))

/-- `padronizar_colunas`: copy, then rename per `rename_dict`. -/
def padronizar_colunas (df : DataFrame) : Option DataFrame :=
  some (renameCols df)

/-! ## A store model for the aliasing claims

Python dataframes are heap objects passed by reference; `df = df.copy()` at
the top of both functions makes every later in-place update hit a fresh
object.  A store is a list of dataframes, an argument is an address into it;
running a function on an address allocates a copy at a fresh address, runs
the body on the copy, and returns the fresh address (or `none` when the body
raises). -/

def runOnCopy (f : DataFrame → Option DataFrame) (st : List DataFrame) (a : Nat) :
    List DataFrame × Option Nat :=
  match f ((st ++ [st.getD a []]).getD st.length []) with
  | some r => ((st ++ [st.getD a []]).set st.length r, some st.length)
  | none => (st ++ [st.getD a []], none)

/-! ## Column-name bookkeeping -/

/-- The column names of a dataframe, in order. -/
def namesOf (df : DataFrame) : List String :=
  df.map Prod.fst

/-- Effect of `setCol` on the name list: unchanged when the column exists,
appended otherwise. -/
def setName (ns : List String) (n : String) : List String :=
  if n ∈ ns then ns else ns ++ [n]

/-- Effect of `dropCol` on the name list. -/
def dropName : List String → String → List String
  | [], _ => []
  | m :: rest, n => if m = n then dropName rest n else m :: dropName rest n

/-- Effect of `limpar_dados` on the column-name list. -/
def limparNames (ns : List String) : List String :=
  let ns1 := dropName ns "cover_url"
  let ns2 := setName (setName ns1 "streams") "is_outlier_streams"
  let ns3 := metricas_musicais.foldl
    (fun a m => setName (setName a m) ("is_outlier_" ++ m)) ns2
  let ns4 := playlist_cols.foldl setName ns3
  setName ns4 "tom_musical"

/-- Whether a column name is an outlier-flag name (starts with
`is_outlier_`). -/
def isFlagName (n : String) : Bool :=
  n.data.take 11 == ("is_outlier_").data

/-- The eight outlier-flag columns the cleaning routine creates. -/
def expected_flag_cols : List String :=
  ["is_outlier_streams", "is_outlier_danceability", "is_outlier_energy",
   "is_outlier_valence", "is_outlier_acousticness",
   "is_outlier_instrumentalness", "is_outlier_liveness",
   "is_outlier_speechiness"]

/-- Numeric columns of the dataset that the routine does not flag. -/
def unflagged_numeric_cols : List String :=
  ["bpm", "playlists_spotify", "playlists_apple", "playlists_deezer",
   "charts_spotify", "charts_apple", "charts_deezer", "charts_shazam",
   "qt_artistas", "ano_lancamento", "mes_lancamento", "dia_lancamento"]

/-- The column names of the dataset after `padronizar_colunas`, in CSV
order; `limpar_dados` is applied to a dataframe with this schema. -/
def rawSchema : List String :=
  ["musica", "artistas", "qt_artistas", "ano_lancamento", "mes_lancamento",
   "dia_lancamento", "playlists_spotify", "charts_spotify", "streams",
   "playlists_apple", "charts_apple", "playlists_deezer", "charts_deezer",
   "charts_shazam", "bpm", "tom_musical", "modo_musical", "danceability",
   "valence", "energy", "acousticness", "instrumentalness", "liveness",
   "speechiness", "cover_url"]

/-- Every column of the dataframe has exactly `k` cells (`k` is the row
count of a rectangular table). -/
abbrev ColsLen (df : DataFrame) (k : Nat) : Prop :=
  ∀ c ∈ df, c.2.length = k

/-! ## A concrete input table

A three-row table with the post-rename schema, exercising the coercion
paths: a non-numeric `streams` entry, non-numeric playlist-count entries,
and a missing `tom_musical` entry. -/

def exampleDf : DataFrame :=
  [("musica", [Cell.str "a", Cell.str "b", Cell.str "c"]),
   ("artistas", [Cell.str "x", Cell.str "y", Cell.str "z"]),
   ("qt_artistas", [Cell.num 1, Cell.num 2, Cell.num 1]),
   ("ano_lancamento", [Cell.num 2020, Cell.num 2021, Cell.num 2022]),
   ("mes_lancamento", [Cell.num 1, Cell.num 2, Cell.num 3]),
   ("dia_lancamento", [Cell.num 4, Cell.num 5, Cell.num 6]),
   ("playlists_spotify", [Cell.str "10", Cell.str "x", Cell.num 30]),
   ("charts_spotify", [Cell.num 1, Cell.num 2, Cell.num 3]),
   ("streams", [Cell.str "1,234", Cell.str "5,678", Cell.str "bad"]),
   ("playlists_apple", [Cell.num 1, Cell.num 2, Cell.num 3]),
   ("charts_apple", [Cell.num 1, Cell.num 2, Cell.num 3]),
   ("playlists_deezer", [Cell.str "7", Cell.str "bad", Cell.str "9"]),
   ("charts_deezer", [Cell.num 1, Cell.num 2, Cell.num 3]),
   ("charts_shazam", [Cell.num 1, Cell.num 2, Cell.num 3]),
   ("bpm", [Cell.num 100, Cell.num 120, Cell.num 140]),
   ("tom_musical", [Cell.str "D", Cell.na, Cell.str "C#"]),
   ("modo_musical", [Cell.str "Major", Cell.str "Minor", Cell.str "Major"]),
   ("danceability", [Cell.num 50, Cell.num 60, Cell.num 70]),
   ("valence", [Cell.num 40, Cell.num 50, Cell.num 60]),
   ("energy", [Cell.num 30, Cell.num 40, Cell.num 50]),
   ("acousticness", [Cell.num 20, Cell.num 30, Cell.num 40]),
   ("instrumentalness", [Cell.num 0, Cell.num 10, Cell.num 20]),
   ("liveness", [Cell.num 10, Cell.num 20, Cell.num 30]),
   ("speechiness", [Cell.num 5, Cell.num 10, Cell.num 15]),
   ("cover_url", [Cell.str "u1", Cell.str "u2", Cell.str "u3"])]

/-- The result of cleaning `exampleDf` (checked against `limpar_dados` in
the theorems below). -/
def cleanEx : DataFrame :=
  [("musica", [Cell.str "a", Cell.str "b", Cell.str "c"]),
   ("artistas", [Cell.str "x", Cell.str "y", Cell.str "z"]),
   ("qt_artistas", [Cell.num 1, Cell.num 2, Cell.num 1]),
   ("ano_lancamento", [Cell.num 2020, Cell.num 2021, Cell.num 2022]),
   ("mes_lancamento", [Cell.num 1, Cell.num 2, Cell.num 3]),
   ("dia_lancamento", [Cell.num 4, Cell.num 5, Cell.num 6]),
   ("playlists_spotify", [Cell.num 10, Cell.num 20, Cell.num 30]),
   ("charts_spotify", [Cell.num 1, Cell.num 2, Cell.num 3]),
   ("streams", [Cell.num 1234, Cell.num 5678, Cell.na]),
   ("playlists_apple", [Cell.num 1, Cell.num 2, Cell.num 3]),
   ("charts_apple", [Cell.num 1, Cell.num 2, Cell.num 3]),
   ("playlists_deezer", [Cell.num 7, Cell.num 8, Cell.num 9]),
   ("charts_deezer", [Cell.num 1, Cell.num 2, Cell.num 3]),
   ("charts_shazam", [Cell.num 1, Cell.num 2, Cell.num 3]),
   ("bpm", [Cell.num 100, Cell.num 120, Cell.num 140]),
   ("tom_musical", [Cell.str "D", Cell.str "C#", Cell.str "C#"]),
   ("modo_musical", [Cell.str "Major", Cell.str "Minor", Cell.str "Major"]),
   ("danceability", [Cell.num 50, Cell.num 60, Cell.num 70]),
   ("valence", [Cell.num 40, Cell.num 50, Cell.num 60]),
   ("energy", [Cell.num 30, Cell.num 40, Cell.num 50]),
   ("acousticness", [Cell.num 20, Cell.num 30, Cell.num 40]),
   ("instrumentalness", [Cell.num 0, Cell.num 10, Cell.num 20]),
   ("liveness", [Cell.num 10, Cell.num 20, Cell.num 30]),
   ("speechiness", [Cell.num 5, Cell.num 10, Cell.num 15]),
   ("is_outlier_streams", [Cell.bool false, Cell.bool false, Cell.bool false]),
   ("is_outlier_danceability", [Cell.bool false, Cell.bool false, Cell.bool false]),
   ("is_outlier_energy", [Cell.bool false, Cell.bool false, Cell.bool false]),
   ("is_outlier_valence", [Cell.bool false, Cell.bool false, Cell.bool false]),
   ("is_outlier_acousticness", [Cell.bool false, Cell.bool false, Cell.bool false]),
   ("is_outlier_instrumentalness", [Cell.bool false, Cell.bool false, Cell.bool false]),
   ("is_outlier_liveness", [Cell.bool false, Cell.bool false, Cell.bool false]),
   ("is_outlier_speechiness", [Cell.bool false, Cell.bool false, Cell.bool false])]

end EDA

namespace EDA

theorem getCol_setCol_self (df : DataFrame) (n : String) (v : List Cell) :
    getCol (setCol df n v) n = some v := by
  induction df with
  | nil => simp [setCol, getCol]
  | cons hd rest ih =>
    obtain ⟨m, w⟩ := hd
    simp only [setCol]
    by_cases hm : m = n
    · simp [hm, getCol]
    · simp [hm, getCol, ih]

theorem getCol_setCol_ne (df : DataFrame) {x n : String} (v : List Cell)
    (h : x ≠ n) : getCol (setCol df n v) x = getCol df x := by
  induction df with
  | nil => simp [setCol, getCol, Ne.symm h]
  | cons hd rest ih =>
    obtain ⟨m, w⟩ := hd
    simp only [setCol]
    by_cases hm : m = n
    · subst hm
      simp [getCol, Ne.symm h]
    · by_cases hx : m = x
      · subst hx
        simp [hm, getCol]
      · simp [hm, hx, getCol, ih]

theorem getCol_dropCol_self (df : DataFrame) (n : String) :
    getCol (dropCol df n) n = none := by
  induction df with
  | nil => simp [dropCol, getCol]
  | cons hd rest ih =>
    obtain ⟨m, w⟩ := hd
    simp only [dropCol]
    by_cases hm : m = n
    · simp [hm, ih]
    · simp [hm, getCol, ih]

theorem getCol_dropCol_ne (df : DataFrame) {x n : String} (h : x ≠ n) :
    getCol (dropCol df n) x = getCol df x := by
  induction df with
  | nil => simp [dropCol]
  | cons hd rest ih =>
    obtain ⟨m, w⟩ := hd
    simp only [dropCol]
    by_cases hm : m = n
    · subst hm
      simp [getCol, Ne.symm h, ih]
    · by_cases hx : m = x
      · subst hx
        simp [hm, getCol]
      · simp [hm, hx, getCol, ih]

theorem getCol_mem {n : String} {v : List Cell} :
    ∀ {df : DataFrame}, getCol df n = some v → (n, v) ∈ df := by
  intro df
  induction df with
  | nil => intro h; simp [getCol] at h
  | cons hd rest ih =>
    obtain ⟨m, w⟩ := hd
    intro h
    by_cases hm : m = n
    · subst hm
      simp [getCol] at h
      simp [h]
    · simp only [getCol, if_neg hm] at h
      exact List.mem_cons_of_mem _ (ih h)

theorem mem_setCol {n : String} {v : List Cell} {c : String × List Cell} :
    ∀ {df : DataFrame}, c ∈ setCol df n v → c = (n, v) ∨ c ∈ df := by
  intro df
  induction df with
  | nil => intro h; simp [setCol] at h; exact Or.inl h
  | cons hd rest ih =>
    obtain ⟨m, w⟩ := hd
    intro h
    by_cases hm : m = n
    · subst hm
      simp [setCol] at h
      rcases h with h | h
      · exact Or.inl h
      · exact Or.inr (List.mem_cons_of_mem _ h)
    · simp only [setCol, if_neg hm, List.mem_cons] at h
      rcases h with h | h
      · exact Or.inr (by simp [h])
      · rcases ih h with h2 | h2
        · exact Or.inl h2
        · exact Or.inr (List.mem_cons_of_mem _ h2)

theorem mem_dropCol {n : String} {c : String × List Cell} :
    ∀ {df : DataFrame}, c ∈ dropCol df n → c ∈ df := by
  intro df
  induction df with
  | nil => intro h; simp [dropCol] at h
  | cons hd rest ih =>
    obtain ⟨m, w⟩ := hd
    intro h
    simp only [dropCol] at h
    by_cases hm : m = n
    · rw [if_pos hm] at h
      exact List.mem_cons_of_mem _ (ih h)
    · rw [if_neg hm] at h
      rcases List.mem_cons.mp h with h2 | h2
      · simp [h2]
      · exact List.mem_cons_of_mem _ (ih h2)

end EDA

namespace EDA

theorem length_toNumericCol (col : List Cell) :
    (toNumericCol col).length = col.length :=
  List.length_map col toNumericCell

theorem length_strReplaceCol (col : List Cell) :
    (strReplaceCol col).length = col.length :=
  List.length_map col strReplaceCell

theorem length_flagCol (col : List Cell) : (flagCol col).length = col.length := by
  unfold flagCol
  cases quantileQ (numsOf col) (1 / 4) <;> cases quantileQ (numsOf col) (3 / 4) <;>
    simp

theorem length_fillnaMedian (col : List Cell) :
    (fillnaMedian col).length = col.length := by
  unfold fillnaMedian
  cases quantileQ (numsOf col) (1 / 2) <;> simp

theorem length_fillnaStr (m : String) (col : List Cell) :
    (fillnaStr m col).length = col.length :=
  List.length_map col _

theorem length_astypeFloatCol :
    ∀ {col out : List Cell}, astypeFloatCol col = some out → out.length = col.length := by
  intro col
  induction col with
  | nil => intro out h; simp [astypeFloatCol] at h; simp [← h]
  | cons c cs ih =>
    intro out h
    simp only [astypeFloatCol] at h
    cases hc : astypeFloatCell c with
    | none => rw [hc] at h; simp at h
    | some c' =>
      rw [hc] at h
      cases hcs : astypeFloatCol cs with
      | none => rw [hcs] at h; simp at h
      | some cs' =>
        rw [hcs] at h
        simp only [Option.some.injEq] at h
        subst h
        simp [ih hcs]

theorem quantileQ_none_any {xs : List ℚ} {a b : ℚ}
    (h : quantileQ xs a = none) : quantileQ xs b = none := by
  unfold quantileQ at h ⊢
  cases hs : sortQ xs with
  | nil => rfl
  | cons y ys => rw [hs] at h; simp at h

theorem string_append_ne_self (m : String) : "is_outlier_" ++ m ≠ m := by
  intro h
  have h2 := congrArg String.length h
  rw [String.length_append] at h2
  have h3 : ("is_outlier_" : String).length = 11 := by decide
  rw [h3] at h2
  omega

theorem string_append_left_cancel {a b c : String} (h : a ++ b = a ++ c) :
    b = c := by
  cases a with
  | mk da =>
    cases b with
    | mk db =>
      cases c with
      | mk dc =>
        injection h with h2
        exact congrArg String.mk (List.append_cancel_left h2)

theorem streamsStage_eq {df out : DataFrame} (h : streamsStage df = some out) :
    ∃ s, getCol df "streams" = some s ∧
      out = setCol (setCol df "streams" (toNumericCol (strReplaceCol s)))
        "is_outlier_streams" (flagCol (toNumericCol (strReplaceCol s))) := by
  unfold streamsStage at h
  split at h
  · exact absurd h (by simp)
  · rename_i s hs
    simp only [Option.some.injEq] at h
    exact ⟨s, hs, h.symm⟩

theorem metricStage_eq {df out : DataFrame} {m : String}
    (h : metricStage df m = some out) :
    ∃ c c', getCol df m = some c ∧ astypeFloatCol c = some c' ∧
      out = setCol (setCol df m c') ("is_outlier_" ++ m) (flagCol c') := by
  unfold metricStage at h
  split at h
  · exact absurd h (by simp)
  · rename_i c hc
    split at h
    · exact absurd h (by simp)
    · rename_i c' hc2
      simp only [Option.some.injEq] at h
      exact ⟨c, c', hc, hc2, h.symm⟩

theorem playlistStage_eq {df out : DataFrame} {p : String}
    (h : playlistStage df p = some out) :
    ∃ v, getCol df p = some v ∧
      out = setCol df p (fillnaMedian (toNumericCol v)) := by
  unfold playlistStage at h
  split at h
  · exact absurd h (by simp)
  · rename_i v hv
    simp only [Option.some.injEq] at h
    exact ⟨v, hv, h.symm⟩

theorem tomStage_eq {df out : DataFrame} (h : tomStage df = some out) :
    ∃ k m, getCol df "tom_musical" = some k ∧ modeOf k = some m ∧
      out = setCol df "tom_musical" (fillnaStr m k) := by
  unfold tomStage at h
  split at h
  · exact absurd h (by simp)
  · rename_i k hk
    split at h
    · exact absurd h (by simp)
    · rename_i m hm
      simp only [Option.some.injEq] at h
      exact ⟨k, m, hk, hm, h.symm⟩

theorem limpar_eq {df out : DataFrame} (h : limpar_dados df = some out) :
    ∃ df1 df2 df3,
      streamsStage (dropCol df "cover_url") = some df1 ∧
      metricas_musicais.foldlM metricStage df1 = some df2 ∧
      playlist_cols.foldlM playlistStage df2 = some df3 ∧
      tomStage df3 = some out := by
  unfold limpar_dados at h
  split at h
  · exact absurd h (by simp)
  · cases h1 : streamsStage (dropCol df "cover_url") with
    | none => rw [h1] at h; simp at h
    | some df1 =>
      rw [h1] at h
      simp only [Option.bind_eq_bind, Option.some_bind] at h
      cases h2 : metricas_musicais.foldlM metricStage df1 with
      | none => rw [h2] at h; simp at h
      | some df2 =>
        rw [h2] at h
        simp only [Option.some_bind] at h
        cases h3 : playlist_cols.foldlM playlistStage df2 with
        | none => rw [h3] at h; simp at h
        | some df3 =>
          rw [h3] at h
          simp only [Option.some_bind] at h
          exact ⟨df1, df2, df3, rfl, h2, h3, h⟩

end EDA

namespace EDA

theorem streamsStage_frame {df out : DataFrame} (h : streamsStage df = some out)
    {x : String} (h1 : x ≠ "streams") (h2 : x ≠ "is_outlier_streams") :
    getCol out x = getCol df x := by
  obtain ⟨s, hs, rfl⟩ := streamsStage_eq h
  rw [getCol_setCol_ne _ _ h2, getCol_setCol_ne _ _ h1]

theorem metricStage_frame {df out : DataFrame} {m : String}
    (h : metricStage df m = some out) {x : String} (h1 : x ≠ m)
    (h2 : x ≠ "is_outlier_" ++ m) : getCol out x = getCol df x := by
  obtain ⟨c, c2, hc, hc2, rfl⟩ := metricStage_eq h
  rw [getCol_setCol_ne _ _ h2, getCol_setCol_ne _ _ h1]

theorem metricStage_result {df out : DataFrame} {m : String}
    (h : metricStage df m = some out) :
    ∃ c c', getCol df m = some c ∧ astypeFloatCol c = some c' ∧
      getCol out m = some c' ∧ getCol out ("is_outlier_" ++ m) = some (flagCol c') := by
  obtain ⟨c, c2, hc, hc2, rfl⟩ := metricStage_eq h
  refine ⟨c, c2, hc, hc2, ?_, ?_⟩
  · rw [getCol_setCol_ne _ _ (Ne.symm (string_append_ne_self m)), getCol_setCol_self]
  · rw [getCol_setCol_self]

theorem playlistStage_frame {df out : DataFrame} {p : String}
    (h : playlistStage df p = some out) {x : String} (h1 : x ≠ p) :
    getCol out x = getCol df x := by
  obtain ⟨v, hv, rfl⟩ := playlistStage_eq h
  rw [getCol_setCol_ne _ _ h1]

theorem tomStage_frame {df out : DataFrame} (h : tomStage df = some out)
    {x : String} (h1 : x ≠ "tom_musical") : getCol out x = getCol df x := by
  obtain ⟨k, m, hk, hm, rfl⟩ := tomStage_eq h
  rw [getCol_setCol_ne _ _ h1]

theorem metricsFold_frame :
    ∀ (L : List String) {df out : DataFrame},
      L.foldlM metricStage df = some out →
      ∀ {x : String}, (∀ m ∈ L, x ≠ m ∧ x ≠ "is_outlier_" ++ m) →
      getCol out x = getCol df x := by
  intro L
  induction L with
  | nil =>
    intro df out h x hx
    have h2 : df = out := Option.some.inj h
    rw [h2]
  | cons m ms ih =>
    intro df out h x hx
    rw [List.foldlM_cons] at h
    cases hm : metricStage df m with
    | none => rw [hm] at h; simp at h
    | some d1 =>
      rw [hm] at h
      simp only [Option.bind_eq_bind, Option.some_bind] at h
      have hfr := metricStage_frame hm (hx m (by simp)).1 (hx m (by simp)).2
      rw [ih h (fun m2 hm2 => hx m2 (List.mem_cons_of_mem _ hm2)), hfr]

theorem metricsFold_result :
    ∀ (L : List String) {df out : DataFrame},
      L.foldlM metricStage df = some out →
      ∀ {m : String}, m ∈ L → L.Nodup →
      (∀ a ∈ L, ∀ b ∈ L, "is_outlier_" ++ a ≠ b) →
      ∃ c', getCol out m = some c' ∧
        getCol out ("is_outlier_" ++ m) = some (flagCol c') := by
  intro L
  induction L with
  | nil => intro df out h m hm; exact absurd hm (by simp)
  | cons a ms ih =>
    intro df out h m hm hnd hfl
    rw [List.foldlM_cons] at h
    cases ha : metricStage df a with
    | none => rw [ha] at h; simp at h
    | some d1 =>
      rw [ha] at h
      simp only [Option.bind_eq_bind, Option.some_bind] at h
      rcases List.mem_cons.mp hm with rfl | hm2
      · -- m is the head; the tail fold leaves column m and its flag alone
        obtain ⟨c, c2, hc, hc2, hout, hflag⟩ := metricStage_result ha
        have hnotin : m ∉ ms := (List.nodup_cons.mp hnd).1
        have hfr1 : getCol out m = getCol d1 m := by
          refine metricsFold_frame ms h ?_
          intro m2 hm2
          constructor
          · intro hEq; exact hnotin (hEq ▸ hm2)
          · intro hEq
            exact hfl m2 (List.mem_cons_of_mem _ hm2) m (List.mem_cons_self _ _)
              hEq.symm
        have hfr2 : getCol out ("is_outlier_" ++ m) = getCol d1 ("is_outlier_" ++ m) := by
          refine metricsFold_frame ms h ?_
          intro m2 hm2
          constructor
          · intro hEq
            exact hfl m (List.mem_cons_self _ _) m2 (List.mem_cons_of_mem _ hm2) hEq
          · intro hEq
            exact hnotin (string_append_left_cancel hEq ▸ hm2)
        exact ⟨c2, by rw [hfr1, hout], by rw [hfr2, hflag]⟩
      · exact ih h hm2 (List.nodup_cons.mp hnd).2
          (fun a2 ha2 b2 hb2 =>
            hfl a2 (List.mem_cons_of_mem _ ha2) b2 (List.mem_cons_of_mem _ hb2))

theorem playlistFold_frame :
    ∀ (L : List String) {df out : DataFrame},
      L.foldlM playlistStage df = some out →
      ∀ {x : String}, (∀ p ∈ L, x ≠ p) →
      getCol out x = getCol df x := by
  intro L
  induction L with
  | nil =>
    intro df out h x hx
    have h2 : df = out := Option.some.inj h
    rw [h2]
  | cons p ps ih =>
    intro df out h x hx
    rw [List.foldlM_cons] at h
    cases hp : playlistStage df p with
    | none => rw [hp] at h; simp at h
    | some d1 =>
      rw [hp] at h
      simp only [Option.bind_eq_bind, Option.some_bind] at h
      rw [ih h (fun p2 hp2 => hx p2 (List.mem_cons_of_mem _ hp2)),
        playlistStage_frame hp (hx p (by simp))]

theorem playlistFold_result :
    ∀ (L : List String) {df out : DataFrame},
      L.foldlM playlistStage df = some out →
      ∀ {p : String}, p ∈ L → L.Nodup →
      ∃ v, getCol df p = some v ∧
        getCol out p = some (fillnaMedian (toNumericCol v)) := by
  intro L
  induction L with
  | nil => intro df out h p hp; exact absurd hp (by simp)
  | cons a ps ih =>
    intro df out h p hp hnd
    rw [List.foldlM_cons] at h
    cases ha : playlistStage df a with
    | none => rw [ha] at h; simp at h
    | some d1 =>
      rw [ha] at h
      simp only [Option.bind_eq_bind, Option.some_bind] at h
      rcases List.mem_cons.mp hp with rfl | hp2
      · obtain ⟨v, hv, rfl⟩ := playlistStage_eq ha
        have hnotin : p ∉ ps := (List.nodup_cons.mp hnd).1
        have hfr : getCol out p = getCol (setCol df p (fillnaMedian (toNumericCol v))) p := by
          refine playlistFold_frame ps h ?_
          intro p2 hp2 hEq
          exact hnotin (hEq ▸ hp2)
        exact ⟨v, hv, by rw [hfr, getCol_setCol_self]⟩
      · obtain ⟨v, hv, hout⟩ := ih h hp2 (List.nodup_cons.mp hnd).2
        obtain ⟨w, hw, rfl⟩ := playlistStage_eq ha
        have hap : a ≠ p := by
          intro hEq
          exact (List.nodup_cons.mp hnd).1 (hEq ▸ hp2)
        rw [getCol_setCol_ne _ _ (Ne.symm hap)] at hv
        exact ⟨v, hv, hout⟩

end EDA

namespace EDA

theorem limpar_streams_spec {df out : DataFrame} (h : limpar_dados df = some out) :
    ∃ s, getCol df "streams" = some s ∧
      getCol out "streams" = some (toNumericCol (strReplaceCol s)) ∧
      getCol out "is_outlier_streams"
        = some (flagCol (toNumericCol (strReplaceCol s))) := by
  obtain ⟨df1, df2, df3, h1, h2, h3, h4⟩ := limpar_eq h
  obtain ⟨s, hs, rfl⟩ := streamsStage_eq h1
  rw [getCol_dropCol_ne _ (by decide)] at hs
  refine ⟨s, hs, ?_, ?_⟩
  · have e2 : getCol df2 "streams"
        = some (toNumericCol (strReplaceCol s)) := by
      rw [metricsFold_frame _ h2 (by decide),
        getCol_setCol_ne _ _ (by decide), getCol_setCol_self]
    have e3 : getCol df3 "streams" = getCol df2 "streams" :=
      playlistFold_frame _ h3 (by decide)
    rw [tomStage_frame h4 (by decide), e3, e2]
  · have e2 : getCol df2 "is_outlier_streams"
        = some (flagCol (toNumericCol (strReplaceCol s))) := by
      rw [metricsFold_frame _ h2 (by decide), getCol_setCol_self]
    have e3 : getCol df3 "is_outlier_streams" = getCol df2 "is_outlier_streams" :=
      playlistFold_frame _ h3 (by decide)
    rw [tomStage_frame h4 (by decide), e3, e2]

theorem limpar_metric_spec {df out : DataFrame} {m : String}
    (h : limpar_dados df = some out) (hm : m ∈ metricas_musicais) :
    ∃ c', getCol out m = some c' ∧
      getCol out ("is_outlier_" ++ m) = some (flagCol c') := by
  obtain ⟨df1, df2, df3, h1, h2, h3, h4⟩ := limpar_eq h
  obtain ⟨c', hc1, hc2⟩ := metricsFold_result _ h2 hm (by decide) (by decide)
  have hmp : ∀ p ∈ playlist_cols, m ≠ p :=
    (by decide : ∀ x ∈ metricas_musicais, ∀ p ∈ playlist_cols, x ≠ p) m hm
  have hfp : ∀ p ∈ playlist_cols, "is_outlier_" ++ m ≠ p :=
    (by decide : ∀ x ∈ metricas_musicais, ∀ p ∈ playlist_cols,
      "is_outlier_" ++ x ≠ p) m hm
  have hmt : m ≠ "tom_musical" :=
    (by decide : ∀ x ∈ metricas_musicais, x ≠ "tom_musical") m hm
  have hft : "is_outlier_" ++ m ≠ "tom_musical" :=
    (by decide : ∀ x ∈ metricas_musicais,
      "is_outlier_" ++ x ≠ "tom_musical") m hm
  refine ⟨c', ?_, ?_⟩
  · rw [tomStage_frame h4 hmt, playlistFold_frame _ h3 hmp, hc1]
  · rw [tomStage_frame h4 hft, playlistFold_frame _ h3 hfp, hc2]

theorem limpar_processed {df out : DataFrame} {c : String}
    (h : limpar_dados df = some out) (hc : c ∈ "streams" :: metricas_musicais) :
    ∃ v, getCol out c = some v ∧
      getCol out ("is_outlier_" ++ c) = some (flagCol v) := by
  rcases List.mem_cons.mp hc with rfl | hc2
  · obtain ⟨s, _, h1, h2⟩ := limpar_streams_spec h
    exact ⟨toNumericCol (strReplaceCol s), h1, h2⟩
  · exact limpar_metric_spec h hc2

end EDA

namespace EDA

theorem limpar_cover_url {df out : DataFrame} (h : limpar_dados df = some out) :
    getCol out "cover_url" = none := by
  obtain ⟨df1, df2, df3, h1, h2, h3, h4⟩ := limpar_eq h
  rw [tomStage_frame h4 (by decide), playlistFold_frame _ h3 (by decide),
    metricsFold_frame _ h2 (by decide),
    streamsStage_frame h1 (by decide) (by decide), getCol_dropCol_self]

theorem limpar_playlist_spec {df out : DataFrame} {p : String}
    (h : limpar_dados df = some out) (hp : p ∈ playlist_cols) :
    ∃ v, getCol df p = some v ∧
      getCol out p = some (fillnaMedian (toNumericCol v)) := by
  obtain ⟨df1, df2, df3, h1, h2, h3, h4⟩ := limpar_eq h
  obtain ⟨v, hv, hout⟩ := playlistFold_result _ h3 hp (by decide)
  have hpt : p ≠ "tom_musical" :=
    (by decide : ∀ x ∈ playlist_cols, x ≠ "tom_musical") p hp
  have hpm : ∀ m ∈ metricas_musicais, p ≠ m ∧ p ≠ "is_outlier_" ++ m :=
    (by decide : ∀ x ∈ playlist_cols, ∀ m ∈ metricas_musicais,
      x ≠ m ∧ x ≠ "is_outlier_" ++ m) p hp
  have hps : p ≠ "streams" ∧ p ≠ "is_outlier_streams" ∧ p ≠ "cover_url" :=
    (by decide : ∀ x ∈ playlist_cols,
      x ≠ "streams" ∧ x ≠ "is_outlier_streams" ∧ x ≠ "cover_url") p hp
  rw [metricsFold_frame _ h2 hpm, streamsStage_frame h1 hps.1 hps.2.1,
    getCol_dropCol_ne _ hps.2.2] at hv
  exact ⟨v, hv, by rw [tomStage_frame h4 hpt, hout]⟩

theorem limpar_tom_spec {df out : DataFrame} (h : limpar_dados df = some out) :
    ∃ k m, getCol df "tom_musical" = some k ∧ modeOf k = some m ∧
      getCol out "tom_musical" = some (fillnaStr m k) := by
  obtain ⟨df1, df2, df3, h1, h2, h3, h4⟩ := limpar_eq h
  obtain ⟨k, m, hk, hm, rfl⟩ := tomStage_eq h4
  rw [playlistFold_frame _ h3 (by decide), metricsFold_frame _ h2 (by decide),
    streamsStage_frame h1 (by decide) (by decide),
    getCol_dropCol_ne _ (by decide)] at hk
  exact ⟨k, m, hk, hm, by rw [getCol_setCol_self]⟩

end EDA

namespace EDA

theorem colsLen_getCol {df : DataFrame} {k : Nat} {n : String} {v : List Cell}
    (h : ColsLen df k) (hg : getCol df n = some v) : v.length = k :=
  h _ (getCol_mem hg)

theorem colsLen_setCol {df : DataFrame} {k : Nat} {n : String} {v : List Cell}
    (h : ColsLen df k) (hv : v.length = k) : ColsLen (setCol df n v) k := by
  intro c hc
  rcases mem_setCol hc with rfl | hc2
  · exact hv
  · exact h _ hc2

theorem colsLen_dropCol {df : DataFrame} {k : Nat} {n : String}
    (h : ColsLen df k) : ColsLen (dropCol df n) k :=
  fun c hc => h _ (mem_dropCol hc)

theorem streamsStage_len {df out : DataFrame} {k : Nat}
    (h : streamsStage df = some out) (hl : ColsLen df k) : ColsLen out k := by
  obtain ⟨s, hs, rfl⟩ := streamsStage_eq h
  have hsl : s.length = k := colsLen_getCol hl hs
  have h1 : (toNumericCol (strReplaceCol s)).length = k := by
    rw [length_toNumericCol, length_strReplaceCol, hsl]
  exact colsLen_setCol (colsLen_setCol hl h1) (by rw [length_flagCol, h1])

theorem metricStage_len {df out : DataFrame} {m : String} {k : Nat}
    (h : metricStage df m = some out) (hl : ColsLen df k) : ColsLen out k := by
  obtain ⟨c, c', hc, hc2, rfl⟩ := metricStage_eq h
  have h1 : c'.length = k := by
    rw [length_astypeFloatCol hc2]; exact colsLen_getCol hl hc
  exact colsLen_setCol (colsLen_setCol hl h1) (by rw [length_flagCol, h1])

theorem playlistStage_len {df out : DataFrame} {p : String} {k : Nat}
    (h : playlistStage df p = some out) (hl : ColsLen df k) : ColsLen out k := by
  obtain ⟨v, hv, rfl⟩ := playlistStage_eq h
  refine colsLen_setCol hl ?_
  rw [length_fillnaMedian, length_toNumericCol]
  exact colsLen_getCol hl hv

theorem tomStage_len {df out : DataFrame} {k : Nat}
    (h : tomStage df = some out) (hl : ColsLen df k) : ColsLen out k := by
  obtain ⟨kc, m, hk, hm, rfl⟩ := tomStage_eq h
  refine colsLen_setCol hl ?_
  rw [length_fillnaStr]
  exact colsLen_getCol hl hk

theorem metricsFold_len :
    ∀ (L : List String) {df out : DataFrame} {k : Nat},
      L.foldlM metricStage df = some out → ColsLen df k → ColsLen out k := by
  intro L
  induction L with
  | nil =>
    intro df out k h hl
    have h2 : df = out := Option.some.inj h
    rw [← h2]; exact hl
  | cons m ms ih =>
    intro df out k h hl
    rw [List.foldlM_cons] at h
    cases hm : metricStage df m with
    | none => rw [hm] at h; simp at h
    | some d1 =>
      rw [hm] at h
      simp only [Option.bind_eq_bind, Option.some_bind] at h
      exact ih h (metricStage_len hm hl)

theorem playlistFold_len :
    ∀ (L : List String) {df out : DataFrame} {k : Nat},
      L.foldlM playlistStage df = some out → ColsLen df k → ColsLen out k := by
  intro L
  induction L with
  | nil =>
    intro df out k h hl
    have h2 : df = out := Option.some.inj h
    rw [← h2]; exact hl
  | cons p ps ih =>
    intro df out k h hl
    rw [List.foldlM_cons] at h
    cases hp : playlistStage df p with
    | none => rw [hp] at h; simp at h
    | some d1 =>
      rw [hp] at h
      simp only [Option.bind_eq_bind, Option.some_bind] at h
      exact ih h (playlistStage_len hp hl)

theorem limpar_len {df out : DataFrame} {k : Nat}
    (h : limpar_dados df = some out) (hl : ColsLen df k) : ColsLen out k := by
  obtain ⟨df1, df2, df3, h1, h2, h3, h4⟩ := limpar_eq h
  exact tomStage_len h4 (playlistFold_len _ h3
    (metricsFold_len _ h2 (streamsStage_len h1 (colsLen_dropCol hl))))

theorem modeStep_mem :
    ∀ (vs l : List String) (acc : Option String) (m : String),
      l.foldl (modeStep vs) acc = some m → acc = some m ∨ m ∈ l := by
  intro vs l
  induction l with
  | nil => intro acc m h; exact Or.inl h
  | cons v t ih =>
    intro acc m h
    rw [List.foldl_cons] at h
    rcases ih _ m h with h2 | h2
    · cases acc with
      | none =>
        simp only [modeStep, Option.some.injEq] at h2
        exact Or.inr (by simp [h2])
      | some b =>
        simp only [modeStep] at h2
        by_cases hc : vs.count b < vs.count v ∨
            (vs.count v = vs.count b ∧ lexLtb v.data b.data)
        · rw [if_pos hc] at h2
          exact Or.inr (by simp [Option.some.inj h2])
        · rw [if_neg hc] at h2
          exact Or.inl h2
    · exact Or.inr (List.mem_cons_of_mem _ h2)

theorem modeStep_max :
    ∀ (vs l : List String) (acc : Option String) (m : String),
      l.foldl (modeStep vs) acc = some m →
      (∀ b, acc = some b → vs.count b ≤ vs.count m) ∧
      (∀ v ∈ l, vs.count v ≤ vs.count m) := by
  intro vs l
  induction l with
  | nil =>
    intro acc m h
    refine ⟨fun b hb => ?_, fun v hv => absurd hv (by simp)⟩
    rw [hb] at h
    rw [Option.some.inj h]
  | cons v t ih =>
    intro acc m h
    rw [List.foldl_cons] at h
    have IH := ih (modeStep vs acc v) m h
    have hv : vs.count v ≤ vs.count m := by
      cases acc with
      | none => exact IH.1 v rfl
      | some b =>
        simp only [modeStep] at IH
        by_cases hc : vs.count b < vs.count v ∨
            (vs.count v = vs.count b ∧ lexLtb v.data b.data)
        · exact IH.1 v (by rw [if_pos hc])
        · have h2 : vs.count v ≤ vs.count b := by
            rcases Nat.lt_or_ge (vs.count b) (vs.count v) with hlt | hge
            · exact absurd (Or.inl hlt) hc
            · exact hge
          exact le_trans h2 (IH.1 b (by rw [if_neg hc]))
    refine ⟨fun b hb => ?_, fun v2 hv2 => ?_⟩
    · subst hb
      simp only [modeStep] at IH
      by_cases hc : vs.count b < vs.count v ∨
          (vs.count v = vs.count b ∧ lexLtb v.data b.data)
      · have hbv : vs.count b ≤ vs.count v := by
          rcases hc with hc | hc
          · exact le_of_lt hc
          · exact le_of_eq hc.1.symm
        exact le_trans hbv (IH.1 v (by rw [if_pos hc]))
      · exact IH.1 b (by rw [if_neg hc])
    · rcases List.mem_cons.mp hv2 with rfl | hv3
      · exact hv
      · exact IH.2 v2 hv3

theorem modeOf_mem {col : List Cell} {m : String} (h : modeOf col = some m) :
    m ∈ strsOf col := by
  unfold modeOf at h
  rcases modeStep_mem _ _ _ _ h with h2 | h2
  · exact absurd h2 (by simp)
  · exact h2

theorem modeOf_max {col : List Cell} {m : String} (h : modeOf col = some m) :
    ∀ v ∈ strsOf col, (strsOf col).count v ≤ (strsOf col).count m := by
  unfold modeOf at h
  exact (modeStep_max _ _ _ _ h).2

end EDA

namespace EDA

theorem toNumericCol_shape {col : List Cell} :
    ∀ c ∈ toNumericCol col, c = Cell.na ∨ ∃ q, c = Cell.num q := by
  intro c hc
  obtain ⟨c0, _, rfl⟩ := List.mem_map.mp hc
  cases c0 with
  | na => exact Or.inl rfl
  | num q => exact Or.inr ⟨q, rfl⟩
  | str s =>
    simp only [toNumericCell]
    cases parseNum s with
    | none => exact Or.inl rfl
    | some q => exact Or.inr ⟨q, rfl⟩
  | bool b => exact Or.inr ⟨if b then 1 else 0, rfl⟩

theorem toNumericCol_get {col : List Cell} {i : Nat} :
    (toNumericCol col).get? i = (col.get? i).map toNumericCell :=
  List.get?_map toNumericCell col i

theorem fillnaStr_no_na {m : String} {col : List Cell} :
    ∀ c ∈ fillnaStr m col, c ≠ Cell.na := by
  intro c hc
  obtain ⟨c0, _, rfl⟩ := List.mem_map.mp hc
  cases c0 <;> simp

theorem fillnaStr_get_na {m : String} {col : List Cell} {i : Nat}
    (h : col.get? i = some Cell.na) :
    (fillnaStr m col).get? i = some (Cell.str m) := by
  unfold fillnaStr
  rw [List.get?_map, h]
  rfl

theorem fillnaStr_get_other {m : String} {col : List Cell} {i : Nat} {c : Cell}
    (h : col.get? i = some c) (hc : c ≠ Cell.na) :
    (fillnaStr m col).get? i = some c := by
  unfold fillnaStr
  rw [List.get?_map, h]
  cases c with
  | na => exact absurd rfl hc
  | num q => rfl
  | str s => rfl
  | bool b => rfl

theorem fillnaMedian_no_na {col : List Cell} {md : ℚ}
    (h : quantileQ (numsOf col) (1 / 2) = some md) :
    ∀ c ∈ fillnaMedian col, c ≠ Cell.na := by
  unfold fillnaMedian
  rw [h]
  intro c hc
  obtain ⟨c0, _, rfl⟩ := List.mem_map.mp hc
  cases c0 <;> simp

theorem fillnaMedian_get_na {col : List Cell} {md : ℚ} {i : Nat}
    (h : quantileQ (numsOf col) (1 / 2) = some md)
    (hi : col.get? i = some Cell.na) :
    (fillnaMedian col).get? i = some (Cell.num md) := by
  unfold fillnaMedian
  rw [h, List.get?_map, hi]
  rfl

theorem flagCol_get_some {col : List Cell} {q1 q3 : ℚ} {i : Nat} {c : Cell}
    (h1 : quantileQ (numsOf col) (1 / 4) = some q1)
    (h3 : quantileQ (numsOf col) (3 / 4) = some q3)
    (hc : col.get? i = some c) :
    (flagCol col).get? i = some (Cell.bool (outlierFlag q1 q3 c)) := by
  unfold flagCol
  rw [h1, h3, List.get?_map, hc]
  rfl

theorem flagCol_get_none {col : List Cell} {i : Nat} {c : Cell}
    (h1 : quantileQ (numsOf col) (1 / 4) = none)
    (hc : col.get? i = some c) :
    (flagCol col).get? i = some (Cell.bool false) := by
  unfold flagCol
  rw [h1, quantileQ_none_any h1, List.get?_map, hc]
  rfl

theorem get_of_lt {col : List Cell} {i : Nat} (hi : i < col.length) :
    ∃ c, col.get? i = some c := by
  cases hc : col.get? i with
  | none => exact absurd (List.get?_eq_none.mp hc) (by omega)
  | some c => exact ⟨c, rfl⟩

end EDA

namespace EDA

theorem namesOf_setCol (df : DataFrame) (n : String) (v : List Cell) :
    namesOf (setCol df n v) = setName (namesOf df) n := by
  induction df with
  | nil => simp [setCol, namesOf, setName]
  | cons hd rest ih =>
    obtain ⟨m, w⟩ := hd
    simp only [setCol]
    by_cases hm : m = n
    · subst hm
      simp [namesOf, setName]
    · simp only [namesOf, setName, List.map_cons, List.mem_cons] at ih ⊢
      rw [if_neg hm]
      by_cases hin : n ∈ List.map Prod.fst rest
      · simp only [List.map_cons]
        rw [if_pos (Or.inr hin)]
        rw [if_pos hin] at ih
        rw [ih]
      · simp only [List.map_cons]
        rw [if_neg (by simp [hin, Ne.symm hm])]
        rw [if_neg hin] at ih
        rw [ih]
        simp

theorem namesOf_dropCol (df : DataFrame) (n : String) :
    namesOf (dropCol df n) = dropName (namesOf df) n := by
  induction df with
  | nil => simp [dropCol, namesOf, dropName]
  | cons hd rest ih =>
    obtain ⟨m, w⟩ := hd
    simp only [dropCol, namesOf, List.map_cons, dropName]
    by_cases hm : m = n
    · rw [if_pos hm, if_pos hm]
      exact ih
    · rw [if_neg hm, if_neg hm]
      simp only [namesOf] at ih
      simp [ih]

theorem streamsStage_names {df out : DataFrame} (h : streamsStage df = some out) :
    namesOf out = setName (setName (namesOf df) "streams") "is_outlier_streams" := by
  obtain ⟨s, hs, rfl⟩ := streamsStage_eq h
  rw [namesOf_setCol, namesOf_setCol]

theorem metricStage_names {df out : DataFrame} {m : String}
    (h : metricStage df m = some out) :
    namesOf out = setName (setName (namesOf df) m) ("is_outlier_" ++ m) := by
  obtain ⟨c, c', hc, hc2, rfl⟩ := metricStage_eq h
  rw [namesOf_setCol, namesOf_setCol]

theorem playlistStage_names {df out : DataFrame} {p : String}
    (h : playlistStage df p = some out) :
    namesOf out = setName (namesOf df) p := by
  obtain ⟨v, hv, rfl⟩ := playlistStage_eq h
  rw [namesOf_setCol]

theorem tomStage_names {df out : DataFrame} (h : tomStage df = some out) :
    namesOf out = setName (namesOf df) "tom_musical" := by
  obtain ⟨k, m, hk, hm, rfl⟩ := tomStage_eq h
  rw [namesOf_setCol]

theorem metricsFold_names :
    ∀ (L : List String) {df out : DataFrame},
      L.foldlM metricStage df = some out →
      namesOf out = L.foldl
        (fun a m => setName (setName a m) ("is_outlier_" ++ m)) (namesOf df) := by
  intro L
  induction L with
  | nil =>
    intro df out h
    have h2 : df = out := Option.some.inj h
    rw [← h2, List.foldl_nil]
  | cons m ms ih =>
    intro df out h
    rw [List.foldlM_cons] at h
    cases hm : metricStage df m with
    | none => rw [hm] at h; simp at h
    | some d1 =>
      rw [hm] at h
      simp only [Option.bind_eq_bind, Option.some_bind] at h
      rw [List.foldl_cons, ih h, metricStage_names hm]

theorem playlistFold_names :
    ∀ (L : List String) {df out : DataFrame},
      L.foldlM playlistStage df = some out →
      namesOf out = L.foldl setName (namesOf df) := by
  intro L
  induction L with
  | nil =>
    intro df out h
    have h2 : df = out := Option.some.inj h
    rw [← h2, List.foldl_nil]
  | cons p ps ih =>
    intro df out h
    rw [List.foldlM_cons] at h
    cases hp : playlistStage df p with
    | none => rw [hp] at h; simp at h
    | some d1 =>
      rw [hp] at h
      simp only [Option.bind_eq_bind, Option.some_bind] at h
      rw [List.foldl_cons, ih h, playlistStage_names hp]

theorem limpar_names {df out : DataFrame} (h : limpar_dados df = some out) :
    namesOf out = limparNames (namesOf df) := by
  obtain ⟨df1, df2, df3, h1, h2, h3, h4⟩ := limpar_eq h
  unfold limparNames
  rw [tomStage_names h4, playlistFold_names _ h3, metricsFold_names _ h2,
    streamsStage_names h1, namesOf_dropCol]

end EDA

namespace EDA

/-- C1: for every numeric column processed for outliers (`streams` and the
seven musical-feature columns) and every row, the outlier flag is `true` iff
the row's value lies outside the closed interval
`[Q1 - 1.5*IQR, Q3 + 1.5*IQR]`, where `Q1`, `Q3` are the 0.25 and 0.75
quantiles of the column after coercion and `IQR = Q3 - Q1`. -/
theorem outlier_flag_iff_iqr {df out : DataFrame} {c : String}
    {v fl : List Cell} {i : Nat}
    (h : limpar_dados df = some out) (hc : c ∈ "streams" :: metricas_musicais)
    (hv : getCol out c = some v) (hfl : getCol out ("is_outlier_" ++ c) = some fl)
    (hi : i < v.length) :
    ∃ b : Bool, fl.get? i = some (Cell.bool b) ∧
      (b = true ↔ ∃ x q1 q3 : ℚ, v.get? i = some (Cell.num x) ∧
        quantileQ (numsOf v) (1 / 4) = some q1 ∧
        quantileQ (numsOf v) (3 / 4) = some q3 ∧
        (x < q1 - 3 / 2 * (q3 - q1) ∨ q3 + 3 / 2 * (q3 - q1) < x)) := by
  obtain ⟨v0, hv0, hfl0⟩ := limpar_processed h hc
  have hvv : v0 = v := Option.some.inj (hv0.symm.trans hv)
  subst hvv
  have hff : fl = flagCol v0 := (Option.some.inj (hfl0.symm.trans hfl)).symm
  subst hff
  obtain ⟨cell, hcell⟩ := get_of_lt hi
  cases hq1 : quantileQ (numsOf v0) (1 / 4) with
  | none =>
    refine ⟨false, flagCol_get_none hq1 hcell, ?_⟩
    constructor
    · intro hF; exact absurd hF (by simp)
    · rintro ⟨x, q1, q3, _, hq, _, _⟩
      exact absurd hq (by simp)
  | some q1 =>
    cases hq3 : quantileQ (numsOf v0) (3 / 4) with
    | none => exact absurd (hq1.symm.trans (quantileQ_none_any hq3)) (by simp)
    | some q3 =>
      refine ⟨outlierFlag q1 q3 cell, flagCol_get_some hq1 hq3 hcell, ?_⟩
      cases cell with
      | num x =>
        constructor
        · intro hT
          refine ⟨x, q1, q3, hcell, rfl, rfl, ?_⟩
          simpa [outlierFlag] using hT
        · rintro ⟨x2, q12, q32, hx2, hq12, hq32, hout⟩
          have hxx : x2 = x := by
            have h2 := Option.some.inj (hcell.symm.trans hx2)
            cases h2; rfl
          have e1 : q12 = q1 := (Option.some.inj hq12).symm
          have e3 : q32 = q3 := (Option.some.inj hq32).symm
          subst hxx; subst e1; subst e3
          simpa [outlierFlag] using hout
      | na =>
        simp only [outlierFlag, Bool.false_eq_true, false_iff]
        rintro ⟨x2, q12, q32, hx2, _, _, _⟩
        exact absurd (Option.some.inj (hcell.symm.trans hx2)) (by simp)
      | str s =>
        simp only [outlierFlag, Bool.false_eq_true, false_iff]
        rintro ⟨x2, q12, q32, hx2, _, _, _⟩
        exact absurd (Option.some.inj (hcell.symm.trans hx2)) (by simp)
      | bool b2 =>
        simp only [outlierFlag, Bool.false_eq_true, false_iff]
        rintro ⟨x2, q12, q32, hx2, _, _, _⟩
        exact absurd (Option.some.inj (hcell.symm.trans hx2)) (by simp)

/-- C10: in every outlier-flag column produced by cleaning, a row whose
value in the flagged column is missing is never flagged: its flag is
`false`. -/
theorem missing_value_not_flagged {df out : DataFrame} {c : String}
    {v fl : List Cell} {i : Nat}
    (h : limpar_dados df = some out) (hc : c ∈ "streams" :: metricas_musicais)
    (hv : getCol out c = some v) (hfl : getCol out ("is_outlier_" ++ c) = some fl)
    (hna : v.get? i = some Cell.na) :
    fl.get? i = some (Cell.bool false) := by
  obtain ⟨v0, hv0, hfl0⟩ := limpar_processed h hc
  have hvv : v0 = v := Option.some.inj (hv0.symm.trans hv)
  subst hvv
  have hff : fl = flagCol v0 := (Option.some.inj (hfl0.symm.trans hfl)).symm
  subst hff
  cases hq1 : quantileQ (numsOf v0) (1 / 4) with
  | none => exact flagCol_get_none hq1 hna
  | some q1 =>
    cases hq3 : quantileQ (numsOf v0) (3 / 4) with
    | none => exact absurd (hq1.symm.trans (quantileQ_none_any hq3)) (by simp)
    | some q3 => exact flagCol_get_some hq1 hq3 hna

/-- C4: after cleaning, the streams column is the elementwise coercion of
the comma-stripped input entries, so it holds no strings (in particular no
comma characters) and every entry is numeric or missing. -/
theorem streams_numeric_or_missing {df out : DataFrame} {s : List Cell}
    (h : limpar_dados df = some out) (hs : getCol df "streams" = some s) :
    getCol out "streams" = some (toNumericCol (strReplaceCol s)) ∧
    ∀ c ∈ toNumericCol (strReplaceCol s), c = Cell.na ∨ ∃ q, c = Cell.num q := by
  obtain ⟨s0, hs0, h1, h2⟩ := limpar_streams_spec h
  have hss : s0 = s := Option.some.inj (hs0.symm.trans hs)
  subst hss
  exact ⟨h1, toNumericCol_shape⟩

/-- C5: cleaning preserves the row count: every column of the cleaned table
has exactly as many cells as the input table has rows; no row is dropped. -/
theorem row_count_preserved {df out : DataFrame} {k : Nat}
    (h : limpar_dados df = some out) (hl : ColsLen df k) : ColsLen out k :=
  limpar_len h hl

/-- C6: for every input table containing the image-URL column `cover_url`,
that column is absent from the cleaned table. -/
theorem cover_url_absent {df out : DataFrame}
    (h : limpar_dados df = some out) (hcu : getCol df "cover_url" ≠ none) :
    getCol out "cover_url" = none :=
  limpar_cover_url h

/-- C7: when the key column `tom_musical` has a value, the cleaned key
column has no missing entry: each missing entry is replaced by the column's
most frequent value (`mode()[0]`). -/
theorem key_column_no_missing {df out : DataFrame} {kc : List Cell}
    (h : limpar_dados df = some out)
    (hk : getCol df "tom_musical" = some kc) :
    ∃ m, modeOf kc = some m ∧ m ∈ strsOf kc ∧
      (∀ v ∈ strsOf kc, (strsOf kc).count v ≤ (strsOf kc).count m) ∧
      getCol out "tom_musical" = some (fillnaStr m kc) ∧
      (∀ c ∈ fillnaStr m kc, c ≠ Cell.na) ∧
      (∀ i, kc.get? i = some Cell.na →
        (fillnaStr m kc).get? i = some (Cell.str m)) := by
  obtain ⟨kc0, m, hk0, hm, hout⟩ := limpar_tom_spec h
  have hkk : kc0 = kc := Option.some.inj (hk0.symm.trans hk)
  subst hkk
  exact ⟨m, hm, modeOf_mem hm, modeOf_max hm, hout, fillnaStr_no_na,
    fun i hi => fillnaStr_get_na hi⟩

end EDA

namespace EDA

theorem runOnCopy_frame (f : DataFrame → Option DataFrame)
    (st : List DataFrame) (a : Nat) (ha : a < st.length) :
    (runOnCopy f st a).1.get? a = st.get? a := by
  unfold runOnCopy
  have happ : (st ++ [st.getD a []]).get? a = st.get? a := by
    rw [List.get?_eq_getElem?, List.get?_eq_getElem?, List.getElem?_append,
      if_pos ha]
  cases hf : f ((st ++ [st.getD a []]).getD st.length []) with
  | none => exact happ
  | some r =>
    have hne : a ≠ st.length := by omega
    calc ((st ++ [st.getD a []]).set st.length r).get? a
        = (st ++ [st.getD a []]).get? a := by
          rw [List.get?_eq_getElem?, List.get?_eq_getElem?,
            List.getElem?_set_ne (fun hh => hne hh.symm)]
      _ = st.get? a := happ

/-- C8: neither `padronizar_colunas` nor `limpar_dados` mutates the
dataframe passed to it: both copy their argument first and work on the
copy, so the caller's dataframe is unchanged and the returned table is a
different object. -/
theorem functions_copy_argument (st : List DataFrame) (a : Nat)
    (ha : a < st.length) :
    (runOnCopy limpar_dados st a).1.get? a = st.get? a ∧
    (runOnCopy padronizar_colunas st a).1.get? a = st.get? a ∧
    (∀ r, (runOnCopy limpar_dados st a).2 = some r → r ≠ a) ∧
    (∀ r, (runOnCopy padronizar_colunas st a).2 = some r → r ≠ a) := by
  refine ⟨runOnCopy_frame _ _ _ ha, runOnCopy_frame _ _ _ ha, ?_, ?_⟩
  · intro r hr
    unfold runOnCopy at hr
    cases hf : limpar_dados ((st ++ [st.getD a []]).getD st.length []) with
    | none => rw [hf] at hr; simp at hr
    | some d =>
      rw [hf] at hr
      simp only [Option.some.injEq] at hr
      omega
  · intro r hr
    unfold runOnCopy at hr
    simp only [padronizar_colunas, Option.some.injEq] at hr
    omega

/-- C9: the cleaning routine adds outlier-flag columns exactly for
`streams` and the seven musical-feature columns — eight flag columns in
all; the playlist-count columns and the other numeric columns receive no
flag. -/
theorem flag_columns_exactly_eight {df out : DataFrame}
    (h : limpar_dados df = some out) (hs : namesOf df = rawSchema) :
    (namesOf out).filter isFlagName = expected_flag_cols ∧
    (∀ c ∈ "streams" :: metricas_musicais, ("is_outlier_" ++ c) ∈ namesOf out) ∧
    (∀ c ∈ unflagged_numeric_cols, ("is_outlier_" ++ c) ∉ namesOf out) := by
  rw [limpar_names h, hs]
  decide

end EDA

namespace EDA

unseal Rat.mul Rat.add Rat.sub Rat.inv in
/-- C2 counterexample: on streams entries `["1,234", "5,678", "bad"]` the
failed coercion becomes a missing marker, but the missing value is NOT
imputed afterwards: the cleaned streams column still contains `na` even
though the column median exists (3456). -/
theorem streams_missing_survives_cleaning :
    limpar_dados exampleDf = some cleanEx ∧
    getCol exampleDf "streams"
      = some [Cell.str "1,234", Cell.str "5,678", Cell.str "bad"] ∧
    getCol cleanEx "streams" = some [Cell.num 1234, Cell.num 5678, Cell.na] ∧
    Cell.na ∈ [Cell.num 1234, Cell.num 5678, Cell.na] ∧
    quantileQ (numsOf [Cell.num 1234, Cell.num 5678, Cell.na]) (1 / 2)
      = some 3456 := by
  refine ⟨by decide, by decide, by decide, by decide, by decide⟩

/-- C2 (amended): numeric-coercion failures during cleaning become missing
markers rather than raising; the missing values of the platform playlist
columns are then imputed with the column median, but the streams column is
not imputed — its cleaned value is exactly the elementwise coercion of the
comma-stripped input, missing markers included. -/
theorem coercion_failures_become_missing {df out : DataFrame} {s : List Cell}
    (h : limpar_dados df = some out) (hs : getCol df "streams" = some s) :
    getCol out "streams" = some (toNumericCol (strReplaceCol s)) ∧
    (∀ i t, (strReplaceCol s).get? i = some (Cell.str t) → parseNum t = none →
      (toNumericCol (strReplaceCol s)).get? i = some Cell.na) ∧
    (∀ p ∈ playlist_cols, ∃ v, getCol df p = some v ∧
      getCol out p = some (fillnaMedian (toNumericCol v))) := by
  obtain ⟨s0, hs0, h1, h2⟩ := limpar_streams_spec h
  have hss : s0 = s := Option.some.inj (hs0.symm.trans hs)
  subst hss
  refine ⟨h1, ?_, fun p hp => limpar_playlist_spec h hp⟩
  intro i t hi ht
  unfold toNumericCol
  rw [List.get?_map, hi]
  simp [toNumericCell, ht]

unseal Rat.mul Rat.add Rat.sub Rat.inv in
/-- C3 counterexample: the cleaning routine coerces and median-imputes
three platform playlist-count columns, not two; in particular the Deezer
column's non-numeric entry is imputed with the column median 8. -/
theorem three_playlist_columns_processed :
    playlist_cols.length = 3 ∧
    limpar_dados exampleDf = some cleanEx ∧
    getCol exampleDf "playlists_deezer"
      = some [Cell.str "7", Cell.str "bad", Cell.str "9"] ∧
    getCol cleanEx "playlists_deezer"
      = some [Cell.num 7, Cell.num 8, Cell.num 9] := by
  refine ⟨by decide, by decide, by decide, by decide⟩

/-- C3 (amended): the cleaning routine coerces exactly three platform
playlist-count columns (Spotify, Apple and Deezer) to numeric and imputes
their non-numeric or missing entries with the respective column median. -/
theorem playlist_columns_imputed {df out : DataFrame}
    (h : limpar_dados df = some out) :
    playlist_cols.length = 3 ∧
    ∀ p ∈ playlist_cols, ∃ v, getCol df p = some v ∧
      getCol out p = some (fillnaMedian (toNumericCol v)) ∧
      (∀ md, quantileQ (numsOf (toNumericCol v)) (1 / 2) = some md →
        ∀ c ∈ fillnaMedian (toNumericCol v), c ≠ Cell.na) := by
  refine ⟨rfl, fun p hp => ?_⟩
  obtain ⟨v, hv, hout⟩ := limpar_playlist_spec h hp
  exact ⟨v, hv, hout, fun md hmd => fillnaMedian_no_na hmd⟩

end EDA

namespace EDA

unseal Rat.mul Rat.add Rat.sub Rat.inv in
/-- Witness for C1: the flag biconditional instantiated at row 0 of the
cleaned streams column of `exampleDf`. -/
theorem outlier_flag_iff_iqr_witness :
    limpar_dados exampleDf = some cleanEx ∧
    "streams" ∈ "streams" :: metricas_musicais ∧
    getCol cleanEx "streams" = some [Cell.num 1234, Cell.num 5678, Cell.na] ∧
    getCol cleanEx "is_outlier_streams"
      = some [Cell.bool false, Cell.bool false, Cell.bool false] ∧
    0 < ([Cell.num 1234, Cell.num 5678, Cell.na] : List Cell).length ∧
    (∃ b : Bool,
      ([Cell.bool false, Cell.bool false, Cell.bool false] : List Cell).get? 0
        = some (Cell.bool b) ∧
      (b = true ↔ ∃ x q1 q3 : ℚ,
        ([Cell.num 1234, Cell.num 5678, Cell.na] : List Cell).get? 0
          = some (Cell.num x) ∧
        quantileQ (numsOf [Cell.num 1234, Cell.num 5678, Cell.na]) (1 / 4)
          = some q1 ∧
        quantileQ (numsOf [Cell.num 1234, Cell.num 5678, Cell.na]) (3 / 4)
          = some q3 ∧
        (x < q1 - 3 / 2 * (q3 - q1) ∨ q3 + 3 / 2 * (q3 - q1) < x))) :=
  ⟨by decide, by decide, by decide, by decide, by decide,
    @outlier_flag_iff_iqr exampleDf cleanEx "streams" _ _ 0
      (by decide) (by decide) (by decide) (by decide) (by decide)⟩

unseal Rat.mul Rat.add Rat.sub Rat.inv in
/-- Witness for C10: the missing streams entry of `exampleDf` (row 2) is
not flagged. -/
theorem missing_value_not_flagged_witness :
    limpar_dados exampleDf = some cleanEx ∧
    "streams" ∈ "streams" :: metricas_musicais ∧
    getCol cleanEx "streams" = some [Cell.num 1234, Cell.num 5678, Cell.na] ∧
    getCol cleanEx "is_outlier_streams"
      = some [Cell.bool false, Cell.bool false, Cell.bool false] ∧
    ([Cell.num 1234, Cell.num 5678, Cell.na] : List Cell).get? 2
      = some Cell.na ∧
    ([Cell.bool false, Cell.bool false, Cell.bool false] : List Cell).get? 2
      = some (Cell.bool false) :=
  ⟨by decide, by decide, by decide, by decide, by decide,
    @missing_value_not_flagged exampleDf cleanEx "streams"
      [Cell.num 1234, Cell.num 5678, Cell.na]
      [Cell.bool false, Cell.bool false, Cell.bool false] 2
      (by decide) (by decide) (by decide) (by decide) (by decide)⟩

unseal Rat.mul Rat.add Rat.sub Rat.inv in
/-- Witness for C2 (amended) at `exampleDf`. -/
theorem coercion_failures_become_missing_witness :
    limpar_dados exampleDf = some cleanEx ∧
    getCol exampleDf "streams"
      = some [Cell.str "1,234", Cell.str "5,678", Cell.str "bad"] ∧
    (getCol cleanEx "streams" = some (toNumericCol (strReplaceCol
        [Cell.str "1,234", Cell.str "5,678", Cell.str "bad"])) ∧
      (∀ i t, (strReplaceCol
          [Cell.str "1,234", Cell.str "5,678", Cell.str "bad"]).get? i
            = some (Cell.str t) → parseNum t = none →
        (toNumericCol (strReplaceCol
          [Cell.str "1,234", Cell.str "5,678", Cell.str "bad"])).get? i
            = some Cell.na) ∧
      (∀ p ∈ playlist_cols, ∃ v, getCol exampleDf p = some v ∧
        getCol cleanEx p = some (fillnaMedian (toNumericCol v)))) :=
  ⟨by decide, by decide,
    @coercion_failures_become_missing exampleDf cleanEx _
      (by decide) (by decide)⟩

unseal Rat.mul Rat.add Rat.sub Rat.inv in
/-- Witness for C3 (amended) at `exampleDf`. -/
theorem playlist_columns_imputed_witness :
    limpar_dados exampleDf = some cleanEx ∧
    (playlist_cols.length = 3 ∧
      ∀ p ∈ playlist_cols, ∃ v, getCol exampleDf p = some v ∧
        getCol cleanEx p = some (fillnaMedian (toNumericCol v)) ∧
        (∀ md, quantileQ (numsOf (toNumericCol v)) (1 / 2) = some md →
          ∀ c ∈ fillnaMedian (toNumericCol v), c ≠ Cell.na)) :=
  ⟨by decide, @playlist_columns_imputed exampleDf cleanEx (by decide)⟩

unseal Rat.mul Rat.add Rat.sub Rat.inv in
/-- Witness for C4 at `exampleDf`. -/
theorem streams_numeric_or_missing_witness :
    limpar_dados exampleDf = some cleanEx ∧
    getCol exampleDf "streams"
      = some [Cell.str "1,234", Cell.str "5,678", Cell.str "bad"] ∧
    (getCol cleanEx "streams" = some (toNumericCol (strReplaceCol
        [Cell.str "1,234", Cell.str "5,678", Cell.str "bad"])) ∧
      ∀ c ∈ toNumericCol (strReplaceCol
        [Cell.str "1,234", Cell.str "5,678", Cell.str "bad"]),
        c = Cell.na ∨ ∃ q, c = Cell.num q) :=
  ⟨by decide, by decide,
    @streams_numeric_or_missing exampleDf cleanEx _ (by decide) (by decide)⟩

unseal Rat.mul Rat.add Rat.sub Rat.inv in
/-- Witness for C5: the three-row `exampleDf` cleans to a table whose
columns all still have three cells. -/
theorem row_count_preserved_witness :
    limpar_dados exampleDf = some cleanEx ∧ ColsLen exampleDf 3 ∧
    ColsLen cleanEx 3 :=
  ⟨by decide, by decide,
    @row_count_preserved exampleDf cleanEx 3 (by decide) (by decide)⟩

unseal Rat.mul Rat.add Rat.sub Rat.inv in
/-- Witness for C6 at `exampleDf`. -/
theorem cover_url_absent_witness :
    limpar_dados exampleDf = some cleanEx ∧
    getCol exampleDf "cover_url" ≠ none ∧
    getCol cleanEx "cover_url" = none :=
  ⟨by decide, by decide,
    @cover_url_absent exampleDf cleanEx (by decide) (by decide)⟩

unseal Rat.mul Rat.add Rat.sub Rat.inv in
/-- Witness for C7 at `exampleDf`: the missing key entry is filled with the
mode `"C#"`. -/
theorem key_column_no_missing_witness :
    limpar_dados exampleDf = some cleanEx ∧
    getCol exampleDf "tom_musical"
      = some [Cell.str "D", Cell.na, Cell.str "C#"] ∧
    (∃ m, modeOf [Cell.str "D", Cell.na, Cell.str "C#"] = some m ∧
      m ∈ strsOf [Cell.str "D", Cell.na, Cell.str "C#"] ∧
      (∀ v ∈ strsOf [Cell.str "D", Cell.na, Cell.str "C#"],
        (strsOf [Cell.str "D", Cell.na, Cell.str "C#"]).count v
          ≤ (strsOf [Cell.str "D", Cell.na, Cell.str "C#"]).count m) ∧
      getCol cleanEx "tom_musical"
        = some (fillnaStr m [Cell.str "D", Cell.na, Cell.str "C#"]) ∧
      (∀ c ∈ fillnaStr m [Cell.str "D", Cell.na, Cell.str "C#"],
        c ≠ Cell.na) ∧
      (∀ i, ([Cell.str "D", Cell.na, Cell.str "C#"] : List Cell).get? i
          = some Cell.na →
        (fillnaStr m [Cell.str "D", Cell.na, Cell.str "C#"]).get? i
          = some (Cell.str m))) :=
  ⟨by decide, by decide,
    @key_column_no_missing exampleDf cleanEx _ (by decide) (by decide)⟩

unseal Rat.mul Rat.add Rat.sub Rat.inv in
/-- Witness for C8 on a one-element store. -/
theorem functions_copy_argument_witness :
    0 < ([exampleDf] : List DataFrame).length ∧
    ((runOnCopy limpar_dados [exampleDf] 0).1.get? 0
        = ([exampleDf] : List DataFrame).get? 0 ∧
      (runOnCopy padronizar_colunas [exampleDf] 0).1.get? 0
        = ([exampleDf] : List DataFrame).get? 0 ∧
      (∀ r, (runOnCopy limpar_dados [exampleDf] 0).2 = some r → r ≠ 0) ∧
      (∀ r, (runOnCopy padronizar_colunas [exampleDf] 0).2 = some r → r ≠ 0)) :=
  ⟨by decide, functions_copy_argument [exampleDf] 0 (by decide)⟩

unseal Rat.mul Rat.add Rat.sub Rat.inv in
/-- Witness for C9 at `exampleDf`. -/
theorem flag_columns_exactly_eight_witness :
    limpar_dados exampleDf = some cleanEx ∧
    namesOf exampleDf = rawSchema ∧
    ((namesOf cleanEx).filter isFlagName = expected_flag_cols ∧
      (∀ c ∈ "streams" :: metricas_musicais,
        ("is_outlier_" ++ c) ∈ namesOf cleanEx) ∧
      (∀ c ∈ unflagged_numeric_cols,
        ("is_outlier_" ++ c) ∉ namesOf cleanEx)) :=
  ⟨by decide, by decide,
    @flag_columns_exactly_eight exampleDf cleanEx (by decide) (by decide)⟩

end EDA
